import Mathlib

/-!
Verification development for the face-matching backend (src/backend/index.js).

The backend exposes one endpoint, POST /api/match-faces, which
1. runs `detectFaceAndExtract` on the ID-card image and on the photo
   (external face detection, `alignFace` rotation, a second detection on the
   aligned canvas, and region extraction with margin),
2. runs `analyzeSimilarity` on the two final detections (descriptor distance
   via faceapi.FaceMatcher, four `compareFeaturePoints` landmark comparisons,
   a boosted similarity score capped at 100, and an ordered analysis list),
3. answers with `match = similarity >= 50` plus the similarity, analysis and
   boxes, or with a 500 error response when any stage threw.

JavaScript numbers are modelled as rationals where the code computes field
operations, comparisons, `Math.min`, `Math.max`, `Math.floor` and
`Math.round`; `Math.sqrt` (used for the descriptor distance and for landmark
point distances) is modelled by `Real.sqrt`, and a JavaScript `NaN` produced
by `0/0` is modelled by `Option.none`.  Thrown JavaScript exceptions are
modelled by `Except.error` carrying the message.  The external face-api.js
detection capability (image -> optional detection) is passed in as a
parameter wherever the code calls it.
-/

namespace Drishti

/-- A decoded raster image: only its integer dimensions are relevant to the
backend logic (canvas.loadImage result). -/
structure Img where
  width : ℕ
  height : ℕ
deriving DecidableEq

/-- A two-dimensional landmark point with JavaScript-number coordinates. -/
structure Pt where
  x : ℚ
  y : ℚ
deriving DecidableEq

/-- The landmark groups the backend reads from a face-api.js detection via
`getLeftEye()`, `getRightEye()`, `getNose()`, `getMouth()`. -/
structure Landmarks where
  leftEye : List Pt
  rightEye : List Pt
  nose : List Pt
  mouth : List Pt
deriving DecidableEq

/-- A detection bounding box `{x, y, width, height}` in pixel coordinates. -/
structure Box where
  x : ℚ
  y : ℚ
  width : ℚ
  height : ℚ
deriving DecidableEq

/-- A full face-api.js detection as consumed by the backend: box, landmark
groups and the face descriptor (embedding vector). -/
structure FaceDetection where
  box : Box
  landmarks : Landmarks
  descriptor : List ℚ
deriving DecidableEq

/-! ## Similarity scorer (analyzeSimilarity, lines 208-247)

`analyzeSimilarity` computes, from the FaceMatcher distance and the four
landmark feature scores,

    let similarity = (1 - distance) * 100;
    const featureMatchScore = (leftEyeMatch + rightEyeMatch + noseMatch + mouthMatch) / 4;
    similarity = similarity * (1 + featureMatchScore * 0.2);
    similarity = Math.min(100, similarity);
    ... return { similarity: Math.round(similarity * 100) / 100, ... }

The functions below embed exactly this arithmetic, parametrised by the
distance value and the feature-match score.  They are stated over any linear
ordered field with a floor so the same definitions serve the rational-valued
claims and the real-valued pipeline model. -/

/-- JavaScript `Math.round`: round half toward positive infinity. -/
def jsRound {α : Type} [LinearOrderedField α] [FloorRing α] (x : α) : ℤ :=
  ⌊x + 1 / 2⌋

/-- The capped boosted similarity of `analyzeSimilarity` (lines 209, 244, 247):
`Math.min(100, (1 - distance) * 100 * (1 + featureMatchScore * 0.2))`. -/
def similarityScore {α : Type} [LinearOrderedField α] (distance featureMatchScore : α) : α :=
  min 100 ((1 - distance) * 100 * (1 + featureMatchScore * (1 / 5)))

/-- The similarity value actually returned (line 281):
`Math.round(similarity * 100) / 100`. -/
def roundedSimilarity {α : Type} [LinearOrderedField α] [FloorRing α]
    (distance featureMatchScore : α) : α :=
  ((jsRound (similarityScore distance featureMatchScore * 100) : ℤ) : α) / 100

/-- The verdict of the /api/match-faces endpoint (lines 362-363):
`const threshold = 50; const match = similarity >= threshold;` where
`similarity` is the rounded similarity returned by `analyzeSimilarity`. -/
def matchVerdict (distance featureMatchScore : ℚ) : Bool :=
  decide (50 ≤ roundedSimilarity distance featureMatchScore)

/-- Evaluation helper for `jsRound` at concrete values. -/
lemma jsRound_eq {α : Type} [LinearOrderedField α] [FloorRing α] (x : α) (n : ℤ)
    (h1 : (n : α) ≤ x + 1 / 2) (h2 : x + 1 / 2 < (n : α) + 1) : jsRound x = n := by
  unfold jsRound
  exact Int.floor_eq_iff.mpr ⟨h1, h2⟩

/-- Evaluation helper for `roundedSimilarity` at concrete values. -/
lemma roundedSimilarity_eq (d f v : ℚ) (n : ℤ) (hv : similarityScore d f = v)
    (h1 : (n : ℚ) ≤ v * 100 + 1 / 2) (h2 : v * 100 + 1 / 2 < (n : ℚ) + 1) :
    roundedSimilarity d f = (n : ℚ) / 100 := by
  unfold roundedSimilarity
  rw [hv, jsRound_eq (v * 100) n h1 h2]

/-! ## Claim C1: the verdict -/

/-- C1 counterexample.  The claim says the categorical verdict is determined
solely by the raw embedding distance with three tiers (0.4 ≤ 0.55 < 0.6 would
have to give POSSIBLE_MATCH in both cases) and that the boosted confidence
plays no role.  In the code the verdict is the binary
`similarity >= 50` on the boosted confidence: at the same distance 0.55 the
verdict flips with the feature-match score, so the distance does not determine
it and the boosted confidence does. -/
theorem verdict_not_distance_tiered :
    matchVerdict 0.55 1 = true ∧ matchVerdict 0.55 0 = false := by
  have h1 : roundedSimilarity (0.55 : ℚ) 1 = 54 := by
    rw [roundedSimilarity_eq 0.55 1 54 5400 (by norm_num [similarityScore, min_def])
      (by norm_num) (by norm_num)]
    norm_num
  have h2 : roundedSimilarity (0.55 : ℚ) 0 = 45 := by
    rw [roundedSimilarity_eq 0.55 0 45 4500 (by norm_num [similarityScore, min_def])
      (by norm_num) (by norm_num)]
    norm_num
  constructor
  · simp only [matchVerdict, h1, decide_eq_true_eq]
    norm_num
  · simp only [matchVerdict, h2]
    rw [decide_eq_false_iff_not]
    norm_num

/-- C1 amended: the endpoint verdict is binary and is determined solely by the
boosted rounded confidence score, by comparison with the fixed threshold 50;
the raw distance influences it only through that confidence. -/
theorem verdict_determined_by_confidence :
    (∀ d1 f1 d2 f2 : ℚ, roundedSimilarity d1 f1 = roundedSimilarity d2 f2 →
      matchVerdict d1 f1 = matchVerdict d2 f2) ∧
    (∀ d f : ℚ, matchVerdict d f = true ↔ 50 ≤ roundedSimilarity d f) := by
  constructor
  · intro d1 f1 d2 f2 h
    simp only [matchVerdict, h]
  · intro d f
    simp [matchVerdict]

/-- C1 witness: two parameter settings with equal confidence (distance 0.5
with no boost, distance 0.6 with boost factor 1.25) receive the same
verdict. -/
theorem verdict_determined_by_confidence_witness :
    matchVerdict (1 / 2 : ℚ) 0 = matchVerdict (3 / 5 : ℚ) (5 / 4) :=
  verdict_determined_by_confidence.1 (1 / 2) 0 (3 / 5) (5 / 4) (by
    rw [roundedSimilarity_eq (1 / 2) 0 50 5000 (by norm_num [similarityScore, min_def])
        (by norm_num) (by norm_num),
      roundedSimilarity_eq (3 / 5) (5 / 4) 50 5000 (by norm_num [similarityScore, min_def])
        (by norm_num) (by norm_num)])

/-! ## Claim C2: confidence bounds -/

/-- C2 counterexample.  The code caps the similarity only from above
(`Math.min(100, similarity)`, line 247) and never clamps from below: at
distance 1.5 with zero feature score the returned confidence is -50. -/
theorem confidence_negative_cex :
    roundedSimilarity (3 / 2 : ℚ) 0 = -50 ∧ similarityScore (3 / 2 : ℚ) 0 < 0 := by
  constructor
  · rw [roundedSimilarity_eq (3 / 2) 0 (-50) (-5000) (by norm_num [similarityScore, min_def])
      (by norm_num) (by norm_num)]
    norm_num
  · norm_num [similarityScore, min_def]

/-- C2 amended: the returned confidence never exceeds 100 for any distance and
feature score, and it is nonnegative whenever the distance is at most 1 and
the feature score is nonnegative; there is no lower clamp, so distances above
1 produce negative confidences. -/
theorem confidence_bounds (d f : ℚ) :
    roundedSimilarity d f ≤ 100 ∧ (d ≤ 1 → 0 ≤ f → 0 ≤ roundedSimilarity d f) := by
  constructor
  · have hs : similarityScore d f ≤ 100 := min_le_left _ _
    have h1 : ⌊similarityScore d f * 100 + 1 / 2⌋ ≤ ⌊(10000 + 1 / 2 : ℚ)⌋ :=
      Int.floor_le_floor (by linarith)
    have h2 : ⌊(10000 + 1 / 2 : ℚ)⌋ = 10000 := Int.floor_eq_iff.mpr (by norm_num)
    have h3 : ((⌊similarityScore d f * 100 + 1 / 2⌋ : ℤ) : ℚ) ≤ 10000 := by
      rw [h2] at h1
      exact_mod_cast h1
    unfold roundedSimilarity jsRound
    linarith
  · intro hd hf
    have hA : 0 ≤ (1 - d) * 100 * (1 + f * (1 / 5)) := by nlinarith
    have hs : 0 ≤ similarityScore d f := le_min (by norm_num) hA
    have h1 : (0 : ℤ) ≤ ⌊similarityScore d f * 100 + 1 / 2⌋ :=
      Int.floor_nonneg.mpr (by linarith)
    have h2 : (0 : ℚ) ≤ ((⌊similarityScore d f * 100 + 1 / 2⌋ : ℤ) : ℚ) := by
      exact_mod_cast h1
    unfold roundedSimilarity jsRound
    linarith

/-- C2 witness: at distance 1/2 and feature score 1/2 both bounds hold. -/
theorem confidence_bounds_witness :
    roundedSimilarity (1 / 2 : ℚ) (1 / 2) ≤ 100 ∧
    (0 : ℚ) ≤ roundedSimilarity (1 / 2 : ℚ) (1 / 2) :=
  ⟨(confidence_bounds (1 / 2) (1 / 2)).1,
   (confidence_bounds (1 / 2) (1 / 2)).2 (by norm_num) (by norm_num)⟩

/-! ## Claim C6: monotone decay -/

/-- C6: for a fixed nonnegative feature-match score (feature-agreement values
are averages of scores in [0,1], hence nonnegative) the capped similarity and
the returned rounded confidence are non-increasing in the distance. -/
theorem confidence_monotone (f d1 d2 : ℚ) (hf : 0 ≤ f) (hd : d1 ≤ d2) :
    similarityScore d2 f ≤ similarityScore d1 f ∧
    roundedSimilarity d2 f ≤ roundedSimilarity d1 f := by
  have hs : similarityScore d2 f ≤ similarityScore d1 f := by
    apply min_le_min le_rfl
    nlinarith
  refine ⟨hs, ?_⟩
  have h1 : ⌊similarityScore d2 f * 100 + 1 / 2⌋ ≤ ⌊similarityScore d1 f * 100 + 1 / 2⌋ :=
    Int.floor_le_floor (by linarith)
  have h2 : ((⌊similarityScore d2 f * 100 + 1 / 2⌋ : ℤ) : ℚ) ≤
      ((⌊similarityScore d1 f * 100 + 1 / 2⌋ : ℤ) : ℚ) := by
    exact_mod_cast h1
  unfold roundedSimilarity jsRound
  linarith

/-- C6 witness: at feature score 0 the confidence at distance 1 is below the
confidence at distance 0. -/
theorem confidence_monotone_witness :
    similarityScore (1 : ℚ) 0 ≤ similarityScore (0 : ℚ) 0 ∧
    roundedSimilarity (1 : ℚ) 0 ≤ roundedSimilarity (0 : ℚ) 0 :=
  confidence_monotone 0 0 1 (by norm_num) (by norm_num)

/-! ## Landmark comparison (compareFeaturePoints, lines 292-307)

    function compareFeaturePoints(points1, points2) {
        try {
            const distances = points1.map((p1, i) => {
                const p2 = points2[i];
                return 1 - Math.min(
                    faceapi.euclideanDistance([p1.x, p1.y], [p2.x, p2.y]) / 100, 1);
            });
            return distances.reduce((sum, d) => sum + d, 0) / distances.length;
        } catch (error) { return 0; }
    }

When `points2` is shorter than `points1` the access `p2.x` on `undefined`
throws a TypeError inside the map, which the catch turns into 0.  Otherwise
the map pairs each point of `points1` with the same-index point of `points2`
(extra points of `points2` are ignored).  When `points1` is empty the reduce
(with seed 0) yields 0 and the division `0 / 0` produces NaN, modelled as
`none`; the catch does not intercept NaN. -/

/-- `faceapi.euclideanDistance([p1.x, p1.y], [p2.x, p2.y])` for two points:
the planar Euclidean distance. -/
noncomputable def pointDistance (p1 p2 : Pt) : ℝ :=
  Real.sqrt (((p1.x : ℝ) - (p2.x : ℝ)) ^ 2 + ((p1.y : ℝ) - (p2.y : ℝ)) ^ 2)

/-- The `points1.map(...)` of `compareFeaturePoints`: errors (TypeError on
`undefined.x`) exactly when `points2` runs out before `points1` does. -/
noncomputable def featureTermList (points1 points2 : List Pt) : Except String (List ℝ) :=
  if points1.length ≤ points2.length then
    .ok ((points1.zip points2).map (fun pq => 1 - min (pointDistance pq.1 pq.2 / 100) 1))
  else .error ("TypeError: cannot read properties of undefined")

/-- `compareFeaturePoints`: average of the per-point terms; `some 0` on a
caught exception; `none` models the NaN produced by `0 / 0` on empty input. -/
noncomputable def compareFeaturePoints (points1 points2 : List Pt) : Option ℝ :=
  match featureTermList points1 points2 with
  | .error _ => some 0
  | .ok ds => if ds.length = 0 then none else some (ds.sum / (ds.length : ℝ))

/-- Each per-point term `1 - Math.min(dist / 100, 1)` lies in [0,1]. -/
lemma featureTerm_mem_bounds (points1 points2 : List Pt) (x : ℝ) (ds : List ℝ)
    (hds : featureTermList points1 points2 = .ok ds) (hx : x ∈ ds) : 0 ≤ x ∧ x ≤ 1 := by
  unfold featureTermList at hds
  split at hds
  · rw [Except.ok.injEq] at hds
    subst hds
    rcases List.mem_map.mp hx with ⟨pq, _, rfl⟩
    have hd : 0 ≤ pointDistance pq.1 pq.2 := Real.sqrt_nonneg _
    have hmin0 : 0 ≤ min (pointDistance pq.1 pq.2 / 100) 1 :=
      le_min (by positivity) zero_le_one
    have hmin1 : min (pointDistance pq.1 pq.2 / 100) 1 ≤ 1 := min_le_right _ _
    constructor <;> linarith
  · exact absurd hds (by simp)

/-- Any numeric (non-NaN) value of `compareFeaturePoints` lies in [0,1]. -/
lemma compareFeaturePoints_bounds (points1 points2 : List Pt) (v : ℝ)
    (hv : compareFeaturePoints points1 points2 = some v) : 0 ≤ v ∧ v ≤ 1 := by
  unfold compareFeaturePoints at hv
  split at hv
  · rw [Option.some.injEq] at hv
    subst hv
    norm_num
  · rename_i ds heq
    by_cases hlen0 : ds.length = 0
    · rw [if_pos hlen0] at hv
      exact absurd hv (by simp)
    · rw [if_neg hlen0, Option.some.injEq] at hv
      subst hv
      have hlen : 0 < (ds.length : ℝ) := by
        exact_mod_cast Nat.pos_of_ne_zero hlen0
      have hsum0 : 0 ≤ ds.sum :=
        List.sum_nonneg (fun x hx => (featureTerm_mem_bounds points1 points2 x ds heq hx).1)
      have hsum1 : ds.sum ≤ (ds.length : ℝ) := by
        have h := List.sum_le_card_nsmul ds 1
          (fun x hx => (featureTerm_mem_bounds points1 points2 x ds heq hx).2)
        simpa using h
      constructor
      · positivity
      · rw [div_le_one hlen]
        exact hsum1

/-! ## Claim C9: feature scores, featureMatchScore and boost bounds -/

/-- C9 counterexample.  For the equal-length pair of empty lists the claim
would require a score in [0,1], but the code divides 0 by 0 and returns NaN
(no exception is thrown, so the catch does not fire). -/
theorem compare_empty_nan_cex :
    compareFeaturePoints ([] : List Pt) [] = none := rfl

/-- C9 amended: whenever the four `compareFeaturePoints` calls return numeric
scores (they return NaN exactly when no exception fired and the first list is
empty), each score lies in [0,1]; hence the averaged featureMatchScore lies
in [0,1] and the multiplicative boost `1 + featureMatchScore * 0.2` applied
to the base similarity lies between 1.0 and 1.2. -/
theorem feature_scores_bounded (l1 l2 r1 r2 n1 n2 m1 m2 : List Pt) (a b c e : ℝ)
    (ha : compareFeaturePoints l1 l2 = some a)
    (hb : compareFeaturePoints r1 r2 = some b)
    (hc : compareFeaturePoints n1 n2 = some c)
    (he : compareFeaturePoints m1 m2 = some e) :
    (0 ≤ a ∧ a ≤ 1) ∧ (0 ≤ b ∧ b ≤ 1) ∧ (0 ≤ c ∧ c ≤ 1) ∧ (0 ≤ e ∧ e ≤ 1) ∧
    (0 ≤ (a + b + c + e) / 4 ∧ (a + b + c + e) / 4 ≤ 1) ∧
    (1 ≤ 1 + (a + b + c + e) / 4 * (1 / 5) ∧ 1 + (a + b + c + e) / 4 * (1 / 5) ≤ 6 / 5) := by
  have Ba := compareFeaturePoints_bounds l1 l2 a ha
  have Bb := compareFeaturePoints_bounds r1 r2 b hb
  have Bc := compareFeaturePoints_bounds n1 n2 c hc
  have Be := compareFeaturePoints_bounds m1 m2 e he
  refine ⟨Ba, Bb, Bc, Be, ⟨by linarith [Ba.1, Bb.1, Bc.1, Be.1], ?_⟩, ⟨?_, ?_⟩⟩
  · linarith [Ba.2, Bb.2, Bc.2, Be.2]
  · nlinarith [Ba.1, Bb.1, Bc.1, Be.1]
  · nlinarith [Ba.2, Bb.2, Bc.2, Be.2]

/-- C9 witness: the comparison of a one-point list against an empty list
takes the catch path and returns the numeric score 0, for which all the
bounds hold. -/
theorem feature_scores_bounded_witness :
    compareFeaturePoints [(⟨0, 0⟩ : Pt)] [] = some 0 ∧
    (0 ≤ ((0 : ℝ) + 0 + 0 + 0) / 4 ∧ ((0 : ℝ) + 0 + 0 + 0) / 4 ≤ 1) :=
  ⟨rfl, (feature_scores_bounded [⟨0, 0⟩] [] [⟨0, 0⟩] [] [⟨0, 0⟩] [] [⟨0, 0⟩] []
    0 0 0 0 rfl rfl rfl rfl).2.2.2.2.1⟩

/-! ## Claim C10: the catch path -/

/-- C10: when the second point list is shorter than the first, the map inside
`compareFeaturePoints` throws (index access on `undefined`), the catch
swallows the exception and the function returns 0 — the verification proceeds
with zero structural credit for that feature instead of aborting. -/
theorem compare_feature_points_catch (points1 points2 : List Pt)
    (h : points2.length < points1.length) :
    (∃ e, featureTermList points1 points2 = .error e) ∧
    compareFeaturePoints points1 points2 = some 0 := by
  have hn : ¬ points1.length ≤ points2.length := not_le.mpr h
  constructor
  · exact ⟨"TypeError: cannot read properties of undefined", by
      unfold featureTermList
      rw [if_neg hn]⟩
  · unfold compareFeaturePoints featureTermList
    rw [if_neg hn]

/-- C10 witness: comparing a one-point list against an empty list errors in
the map and returns 0. -/
theorem compare_feature_points_catch_witness :
    (∃ e, featureTermList [(⟨0, 0⟩ : Pt)] [] = .error e) ∧
    compareFeaturePoints [(⟨0, 0⟩ : Pt)] [] = some 0 :=
  compare_feature_points_catch [⟨0, 0⟩] [] (by simp)

/-! ## Geometric normalizer (alignFace, lines 78-112)

`alignFace` computes the two eye centroids with
`eye.reduce((sum, point) => sum + point.x, 0) / eye.length` (and likewise for
y), the angle `atan2(Δy, Δx)` between them, and draws the input image rotated
by `-angle` onto a fresh canvas of the same dimensions.  None of these
operations throws: on an empty eye group the centroid division is `0 / 0`,
i.e. NaN (modelled as `none`), `atan2` of NaN is NaN, and the canvas
`rotate(NaN)` call is simply ignored (non-finite transform arguments are
dropped), so an image is still produced.  The canvas is modelled by its
dimensions together with the pair `(Δy, Δx)` that the code passes to `atan2`
(`none` when the centroids are NaN); the rotated pixel content itself is
outside the model. -/

/-- Centroid of a point group; `none` models the NaN from `0 / 0` on an empty
group. -/
def centroid (pts : List Pt) : Option Pt :=
  if pts.length = 0 then none
  else some ⟨(pts.map Pt.x).sum / (pts.length : ℚ), (pts.map Pt.y).sum / (pts.length : ℚ)⟩

/-- The canvas produced by `alignFace`: same dimensions as the input image,
plus the `(Δy, Δx)` arguments of the `atan2` rotation-angle computation
(`none` when an empty eye group made the centroids NaN, in which case the
canvas rotation is a no-op). -/
structure AlignedCanvas where
  width : ℕ
  height : ℕ
  angleArgs : Option (ℚ × ℚ)
deriving DecidableEq

/-- `alignFace(img, detection)`: never throws; returns a canvas with the
input dimensions. -/
def alignFace (img : Img) (landmarks : Landmarks) : Except String AlignedCanvas :=
  let leftEyeCenter := centroid landmarks.leftEye
  let rightEyeCenter := centroid landmarks.rightEye
  .ok { width := img.width
        height := img.height
        angleArgs := leftEyeCenter.bind (fun lc =>
          rightEyeCenter.map (fun rc => (rc.y - lc.y, rc.x - lc.x))) }

/-! ## Claim C8: empty eye group -/

/-- C8 counterexample.  The claim says an empty eye group makes normalization
fail with a GeometryError rather than produce an image; the code has no such
check and succeeds, returning a full-size canvas whose rotation angle
computation received NaN. -/
theorem align_empty_eye_cex :
    alignFace ⟨100, 100⟩ ⟨[], [⟨1, 1⟩], [], []⟩ =
      .ok (⟨100, 100, none⟩ : AlignedCanvas) := rfl

/-- C8 amended: with an empty eye group `alignFace` does not fail; the
centroid division is 0/0 (NaN), so the rotation angle is NaN (and the canvas
rotation a no-op), and an image with the input dimensions is still
returned. -/
theorem align_empty_eye_no_error (img : Img) (landmarks : Landmarks)
    (h : landmarks.leftEye = [] ∨ landmarks.rightEye = []) :
    ∃ c, alignFace img landmarks = .ok c ∧
      c.width = img.width ∧ c.height = img.height ∧ c.angleArgs = none := by
  rcases h with h | h
  · refine ⟨_, rfl, rfl, rfl, ?_⟩
    simp [alignFace, centroid, h]
  · refine ⟨_, rfl, rfl, rfl, ?_⟩
    simp [alignFace, centroid, h]

/-- C8 witness: a concrete empty left-eye group. -/
theorem align_empty_eye_no_error_witness :
    ∃ c, alignFace ⟨200, 100⟩ ⟨[], [⟨1, 1⟩], [], []⟩ = .ok c ∧
      c.width = 200 ∧ c.height = 100 ∧ c.angleArgs = none :=
  align_empty_eye_no_error ⟨200, 100⟩ ⟨[], [⟨1, 1⟩], [], []⟩ (Or.inl rfl)

/-! ## Region extraction (detectFaceAndExtract, lines 145-167)

    const box = alignedDetection.detection.box;
    const margin = Math.floor(Math.max(box.width, box.height) * 0.25);
    const faceCanvas = new Canvas(box.width + (margin * 2), box.height + (margin * 2));
    ctx.drawImage(alignedFace,
        Math.max(0, box.x - margin), Math.max(0, box.y - margin),
        box.width + (margin * 2), box.height + (margin * 2),
        0, 0, box.width + (margin * 2), box.height + (margin * 2));

The source rectangle read from the aligned image is
`(sx, sy, sw, sh) = (max(0, x - margin), max(0, y - margin), w + 2*margin,
h + 2*margin)`.  Note that the image dimensions are never consulted: only the
top-left corner is clamped (at 0), the extent is not. -/

/-- `Math.floor(Math.max(box.width, box.height) * 0.25)`. -/
def extractionMargin (box : Box) : ℤ :=
  ⌊max box.width box.height * 0.25⌋

/-- The extraction canvas size and the source rectangle passed to
`drawImage`. -/
structure ExtractionGeometry where
  canvasWidth : ℚ
  canvasHeight : ℚ
  sx : ℚ
  sy : ℚ
  sw : ℚ
  sh : ℚ
deriving DecidableEq

/-- The extraction geometry computed from the detection box. -/
def extractionGeometry (box : Box) : ExtractionGeometry :=
  let margin : ℚ := (extractionMargin box : ℤ)
  { canvasWidth := box.width + margin * 2
    canvasHeight := box.height + margin * 2
    sx := max 0 (box.x - margin)
    sy := max 0 (box.y - margin)
    sw := box.width + margin * 2
    sh := box.height + margin * 2 }

/-! ## Claim C5: source-rectangle clamping -/

/-- C5 counterexample.  For the box (80, 80, 20, 20), which lies entirely
inside a 100 x 100 image and touches its right and bottom edges, the margin
is 5 and the source rectangle spans x in [75, 105): its extent exceeds the
image width 100, so the rectangle is not clamped to [0, width). -/
theorem extraction_overflow_cex :
    (extractionGeometry ⟨80, 80, 20, 20⟩).sx = 75 ∧
    (extractionGeometry ⟨80, 80, 20, 20⟩).sw = 30 ∧
    ¬ ((extractionGeometry ⟨80, 80, 20, 20⟩).sx +
        (extractionGeometry ⟨80, 80, 20, 20⟩).sw ≤ 100) := by
  have hm : extractionMargin ⟨80, 80, 20, 20⟩ = 5 := by
    unfold extractionMargin
    norm_num
  refine ⟨?_, ?_, ?_⟩ <;>
    simp [extractionGeometry, hm] <;> norm_num

/-- C5 amended: the extractor clamps only the top-left corner of the source
rectangle at 0 (`Math.max(0, ...)`); its extent is computed without reference
to the image dimensions, so the rectangle can extend past the right and
bottom image edges (the clipping is then done by the canvas library, not by
this code). -/
theorem extraction_clamped_low_only (box : Box) :
    0 ≤ (extractionGeometry box).sx ∧ 0 ≤ (extractionGeometry box).sy :=
  ⟨le_max_left 0 _, le_max_left 0 _⟩

/-! ## The analysis sentences (analyzeSimilarity, lines 249-278) -/

/-- Sentence pushed when `distance < 0.4`. -/
def sVeryHigh : String := "Very high confidence match based on facial features"

/-- Sentence pushed when `0.4 <= distance < 0.5`. -/
def sGood : String := "Good confidence match with some variations"

/-- Sentence pushed when `0.5 <= distance < 0.6`. -/
def sPossible : String := "Possible match with notable variations"

/-- Sentence pushed when `featureMatchScore > 0.8`. -/
def sStrong : String := "Strong structural similarity in facial features"

/-- Sentence pushed when both eye match scores exceed 0.8. -/
def sEyes : String := "Eye regions show strong correspondence"

/-- Sentence pushed when `noseMatch > 0.8`. -/
def sNose : String := "Nose structure shows high similarity"

/-- Sentence pushed when `mouthMatch > 0.8`. -/
def sMouth : String := "Mouth region indicates a match"

/-- Sentence pushed when `distance > 0.45`. -/
def sCaveat : String := "Variations likely due to aging, expression, or image conditions"

/-- The ordered `analysis` array built by `analyzeSimilarity` (lines 250-278),
as a function of the distance and the four feature match scores;
`featureMatchScore` is the average computed at line 239.  Each conditional
`analysis.push(...)` becomes a conditional singleton, concatenated in program
order. -/
def analysisList (distance leftEyeMatch rightEyeMatch noseMatch mouthMatch : ℚ) : List String :=
  let featureMatchScore := (leftEyeMatch + rightEyeMatch + noseMatch + mouthMatch) / 4
  (if distance < 0.4 then [sVeryHigh]
    else if distance < 0.5 then [sGood]
    else if distance < 0.6 then [sPossible]
    else [])
  ++ (if 0.8 < featureMatchScore then [sStrong] else [])
  ++ (if 0.8 < leftEyeMatch ∧ 0.8 < rightEyeMatch then [sEyes] else [])
  ++ (if 0.8 < noseMatch then [sNose] else [])
  ++ (if 0.8 < mouthMatch then [sMouth] else [])
  ++ (if 0.45 < distance then [sCaveat] else [])

/-! ## Descriptor distance and the full analyzeSimilarity pipeline -/

/-- `faceapi.euclideanDistance` applied to the two descriptors (via
`FaceMatcher.findBestMatch` with the single labeled reference descriptor),
modelled by its square, which is rational: the JS distance is `Math.sqrt` of
this value, `Math.sqrt` never throws, and it is strictly monotone, so the
error behaviour and all threshold comparisons transfer.  The library throws
when the lengths differ, and its seedless `reduce` throws on empty arrays. -/
def euclideanDistanceSq (arr1 arr2 : List ℚ) : Except String ℚ :=
  if arr1.length ≠ arr2.length then .error ("euclideanDistance: arr.length must be equal")
  else if arr1.length = 0 then .error ("Reduce of empty array with no initial value")
  else .ok (((arr1.zip arr2).map (fun pq => (pq.1 - pq.2) ^ 2)).sum)

/-- A JavaScript `>` comparison against a possibly-NaN value: false when the
value is NaN. -/
def optGT (o : Option ℝ) (c : ℝ) : Prop :=
  match o with
  | some v => c < v
  | none => False

open scoped Classical in
/-- The `analysis` array of `analyzeSimilarity` over the real-valued pipeline,
where the feature scores may be NaN (`none`): every comparison against NaN is
false, so NaN-gated sentences are dropped.  The distance itself (a square
root of a sum of squares) is never NaN. -/
noncomputable def analysisListR (distance : ℝ) (fms l r n m : Option ℝ) : List String :=
  (if distance < 0.4 then [sVeryHigh]
    else if distance < 0.5 then [sGood]
    else if distance < 0.6 then [sPossible]
    else [])
  ++ (if optGT fms 0.8 then [sStrong] else [])
  ++ (if optGT l 0.8 ∧ optGT r 0.8 then [sEyes] else [])
  ++ (if optGT n 0.8 then [sNose] else [])
  ++ (if optGT m 0.8 then [sMouth] else [])
  ++ (if 0.45 < distance then [sCaveat] else [])

/-- The record returned by `analyzeSimilarity`: the rounded similarity, the
joined analysis list, the distance and the feature match score, together with
the four per-feature scores it computed.  `none` models NaN. -/
structure SimilarityOutcome where
  distance : ℝ
  leftEyeMatch : Option ℝ
  rightEyeMatch : Option ℝ
  noseMatch : Option ℝ
  mouthMatch : Option ℝ
  featureMatchScore : Option ℝ
  similarity : Option ℝ
  analysis : List String

/-- `analyzeSimilarity(detection1, detection2)` (lines 191-290): descriptor
distance through the FaceMatcher (which rethrows the euclideanDistance error
through the catch at line 286), the four `compareFeaturePoints` calls, the
boosted capped similarity, and the analysis list. -/
noncomputable def analyzeSimilarity (detection1 detection2 : FaceDetection) :
    Except String SimilarityOutcome :=
  match euclideanDistanceSq detection1.descriptor detection2.descriptor with
  | .error e => .error e
  | .ok dsq =>
    let distance : ℝ := Real.sqrt (dsq : ℝ)
    let leftEyeMatch := compareFeaturePoints detection1.landmarks.leftEye
      detection2.landmarks.leftEye
    let rightEyeMatch := compareFeaturePoints detection1.landmarks.rightEye
      detection2.landmarks.rightEye
    let noseMatch := compareFeaturePoints detection1.landmarks.nose
      detection2.landmarks.nose
    let mouthMatch := compareFeaturePoints detection1.landmarks.mouth
      detection2.landmarks.mouth
    let featureMatchScore : Option ℝ :=
      match leftEyeMatch, rightEyeMatch, noseMatch, mouthMatch with
      | some a, some b, some c, some e => some ((a + b + c + e) / 4)
      | _, _, _, _ => none
    .ok { distance := distance
          leftEyeMatch := leftEyeMatch
          rightEyeMatch := rightEyeMatch
          noseMatch := noseMatch
          mouthMatch := mouthMatch
          featureMatchScore := featureMatchScore
          similarity := featureMatchScore.map (fun f => roundedSimilarity distance f)
          analysis := analysisListR distance featureMatchScore leftEyeMatch
            rightEyeMatch noseMatch mouthMatch }

/-! ## Claim C7: mismatched descriptor dimensionality -/

/-- C7: when the two detections carry descriptors of different lengths, the
similarity analysis fails with the euclideanDistance length error (rethrown
by the catch in `analyzeSimilarity`, so the request aborts); it never returns
a distance computed from mismatched or truncated vectors. -/
theorem dimension_mismatch_errors (detection1 detection2 : FaceDetection)
    (h : detection1.descriptor.length ≠ detection2.descriptor.length) :
    analyzeSimilarity detection1 detection2 =
      .error ("euclideanDistance: arr.length must be equal") := by
  unfold analyzeSimilarity euclideanDistanceSq
  rw [if_pos h]

/-- C7 witness: a 1-dimensional against a 2-dimensional descriptor. -/
theorem dimension_mismatch_errors_witness :
    analyzeSimilarity ⟨⟨0, 0, 1, 1⟩, ⟨[], [], [], []⟩, [0]⟩
      ⟨⟨0, 0, 1, 1⟩, ⟨[], [], [], []⟩, [0, 1]⟩ =
        .error ("euclideanDistance: arr.length must be equal") :=
  dimension_mismatch_errors _ _ (by simp)

/-! ## Orchestration (detectFaceAndExtract and the /api/match-faces handler)

`detectFaceAndExtract(imagePath, isIDCard)` (lines 114-189) loads the image,
runs the external `faceapi.detectSingleFace` (passed here as the value
`firstDetection`), throws naming the source image when it is null, aligns via
`alignFace`, re-runs detection on the aligned canvas (passed here as the
function `detectOnAligned`), throws when that is null, and extracts the face
region; the catch at line 185 wraps every thrown message in
`Failed to process <source>: <message>`.

The `/api/match-faces` handler (lines 334-403) runs it for the ID card, then
for the photo, then `analyzeSimilarity`, and answers `match = similarity >=
50`; any thrown error becomes a 500 error response and no result object is
sent. -/

/-- The source-image name used in the error messages. -/
def sourceName (isIDCard : Bool) : String :=
  if isIDCard then "ID card" else "photo"

/-- The catch wrapper of `detectFaceAndExtract` (line 187). -/
def processFailure (isIDCard : Bool) (msg : String) : String :=
  "Failed to process " ++ sourceName isIDCard ++ ": " ++ msg

/-- The throw at line 130. -/
def noFaceMsg (isIDCard : Bool) : String :=
  "No face detected in the " ++ sourceName isIDCard

/-- The throw at line 142. -/
def alignedNoFaceMsg (isIDCard : Bool) : String :=
  "Could not detect face features in aligned " ++ sourceName isIDCard

/-- The record returned by `detectFaceAndExtract`: the aligned detection, the
extraction geometry of the saved face crop, and the reported box. -/
structure ExtractResult where
  detection : FaceDetection
  geometry : ExtractionGeometry
  box : Box

/-- `detectFaceAndExtract`, parametrised by the external detection results:
`firstDetection` is what `detectSingleFace` returned on the input image and
`detectOnAligned` is what it returns on the aligned canvas. -/
def detectFaceAndExtract (img : Img) (firstDetection : Option FaceDetection)
    (detectOnAligned : AlignedCanvas → Option FaceDetection) (isIDCard : Bool) :
    Except String ExtractResult :=
  match firstDetection with
  | none => .error (processFailure isIDCard (noFaceMsg isIDCard))
  | some fullDetection =>
    match alignFace img fullDetection.landmarks with
    | .error e => .error (processFailure isIDCard e)
    | .ok alignedFace =>
      match detectOnAligned alignedFace with
      | none => .error (processFailure isIDCard (alignedNoFaceMsg isIDCard))
      | some alignedDetection =>
        .ok { detection := alignedDetection
              geometry := extractionGeometry alignedDetection.box
              box := alignedDetection.box }

/-- The JSON answered by the endpoint on success. -/
structure MatchResponse where
  matched : Prop
  confidence : Option ℝ
  analysisText : String
  featureMatchScoreRounded : Option ℤ
  message : String
  threshold : ℚ
  idCardBox : Box
  photoBox : Box

open scoped Classical in
/-- The `/api/match-faces` handler after upload validation: processes the ID
card, then the photo, then the similarity; a thrown error anywhere becomes an
error response and no (partial) result is produced. -/
noncomputable def matchFaces (refImg probeImg : Img)
    (refDetection : Option FaceDetection)
    (refDetectOnAligned : AlignedCanvas → Option FaceDetection)
    (probeDetection : Option FaceDetection)
    (probeDetectOnAligned : AlignedCanvas → Option FaceDetection) :
    Except String MatchResponse :=
  match detectFaceAndExtract refImg refDetection refDetectOnAligned true with
  | .error e => .error e
  | .ok idCardResult =>
    match detectFaceAndExtract probeImg probeDetection probeDetectOnAligned false with
    | .error e => .error e
    | .ok photoResult =>
      match analyzeSimilarity idCardResult.detection photoResult.detection with
      | .error e => .error e
      | .ok sim =>
        let isMatch : Prop :=
          match sim.similarity with
          | some s => (50 : ℝ) ≤ s
          | none => False
        .ok { matched := isMatch
              confidence := sim.similarity
              analysisText := String.intercalate (". ") sim.analysis ++ "."
              featureMatchScoreRounded := sim.featureMatchScore.map (fun f => jsRound (f * 100))
              message := if isMatch then "Faces match" else "Faces do not match"
              threshold := 50
              idCardBox := idCardResult.box
              photoBox := photoResult.box }

/-! ## Claim C3: no detectable face -/

/-- C3: when the external detector finds no face in the ID-card image the
whole verification fails with the error naming the ID card; when the ID card
succeeds and no face is found in the photo, it fails naming the photo; and a
success response is only produced when both images had a detected face (no
partial result is ever returned). -/
theorem no_face_detected_error (refImg probeImg : Img)
    (refDetection probeDetection : Option FaceDetection)
    (refDetectOnAligned probeDetectOnAligned : AlignedCanvas → Option FaceDetection) :
    (refDetection = none →
      matchFaces refImg probeImg refDetection refDetectOnAligned
          probeDetection probeDetectOnAligned =
        .error ("Failed to process ID card: No face detected in the ID card")) ∧
    (∀ res, detectFaceAndExtract refImg refDetection refDetectOnAligned true = .ok res →
      probeDetection = none →
      matchFaces refImg probeImg refDetection refDetectOnAligned
          probeDetection probeDetectOnAligned =
        .error ("Failed to process photo: No face detected in the photo")) ∧
    (∀ resp, matchFaces refImg probeImg refDetection refDetectOnAligned
        probeDetection probeDetectOnAligned = .ok resp →
      refDetection ≠ none ∧ probeDetection ≠ none) := by
  refine ⟨?_, ?_, ?_⟩
  · intro h
    subst h
    rfl
  · intro res hres hp
    subst hp
    unfold matchFaces
    rw [hres]
    rfl
  · intro resp hresp
    constructor
    · intro h
      subst h
      exact absurd hresp (by simp [matchFaces, detectFaceAndExtract, processFailure,
        noFaceMsg, sourceName])
    · intro h
      subst h
      unfold matchFaces at hresp
      rcases href : detectFaceAndExtract refImg refDetection refDetectOnAligned true with
        e | res
      · rw [href] at hresp
        exact absurd hresp (by simp)
      · rw [href] at hresp
        exact absurd hresp (by simp [detectFaceAndExtract])

/-- C3 witness: no face in the ID-card image yields exactly the ID-card
error. -/
theorem no_face_detected_error_witness :
    matchFaces ⟨100, 100⟩ ⟨100, 100⟩ none (fun _ => none) none (fun _ => none) =
      .error ("Failed to process ID card: No face detected in the ID card") :=
  (no_face_detected_error ⟨100, 100⟩ ⟨100, 100⟩ none none
    (fun _ => none) (fun _ => none)).1 rfl

/-! ## Claim C4: structure of the rationale -/

/-- C4 counterexample.  At distance 0.7 (with all feature scores 0) the
analysis contains no distance-tier sentence at all — only the caveat — so the
tier sentence is not always present; and at distance 0.42, which exceeds the
MATCH tier (0.42 >= 0.4), the caveat is absent because the code gates it on
`distance > 0.45`, not on the MATCH-tier boundary 0.4. -/
theorem rationale_cex :
    analysisList 0.7 0 0 0 0 = [sCaveat] ∧ analysisList 0.42 0 0 0 0 = [sGood] := by
  constructor <;> · simp only [analysisList]
                    norm_num

/-- A conditional singleton push is a sublist of the singleton itself. -/
lemma ite_singleton_sublist (c : Prop) [Decidable c] (s : String) :
    (if c then [s] else []).Sublist [s] := by
  split
  · exact List.Sublist.refl [s]
  · exact List.nil_sublist [s]

/-- The analysis list is always a sublist of the full sentence sequence in
its fixed order: tier sentence, structural sentence, eyes, nose, mouth,
caveat. -/
lemma analysisList_sublist (d l r n m : ℚ) :
    (analysisList d l r n m).Sublist
      [sVeryHigh, sGood, sPossible, sStrong, sEyes, sNose, sMouth, sCaveat] := by
  rw [show [sVeryHigh, sGood, sPossible, sStrong, sEyes, sNose, sMouth, sCaveat] =
      [sVeryHigh, sGood, sPossible] ++ ([sStrong] ++ ([sEyes] ++ ([sNose] ++
        ([sMouth] ++ [sCaveat])))) from rfl]
  simp only [analysisList, List.append_assoc]
  refine List.Sublist.append ?_ (List.Sublist.append ?_ (List.Sublist.append ?_
    (List.Sublist.append ?_ (List.Sublist.append ?_ ?_))))
  · split_ifs <;> simp
  · exact ite_singleton_sublist _ _
  · exact ite_singleton_sublist _ _
  · exact ite_singleton_sublist _ _
  · exact ite_singleton_sublist _ _
  · exact ite_singleton_sublist _ _

set_option maxHeartbeats 2000000 in
/-- C4 amended: the rationale is an ordered sublist of the fixed sentence
sequence; a distance-tier sentence is present (and, when present, comes
first) exactly when distance < 0.6 — very-high for distance < 0.4, good for
0.4 <= distance < 0.5, possible for 0.5 <= distance < 0.6, and none at all
for distance >= 0.6; the feature sentences follow in the fixed order overall
structure, eyes, nose, mouth (the code has no jaw sentence); and the caveat
sentence is present exactly when distance > 0.45 (not 0.4), in which case it
is last. -/
theorem rationale_structure (d l r n m : ℚ) :
    ((analysisList d l r n m).head? = some sVeryHigh ↔ d < 0.4) ∧
    ((analysisList d l r n m).head? = some sGood ↔ 0.4 ≤ d ∧ d < 0.5) ∧
    ((analysisList d l r n m).head? = some sPossible ↔ 0.5 ≤ d ∧ d < 0.6) ∧
    (0.6 ≤ d → sVeryHigh ∉ analysisList d l r n m ∧ sGood ∉ analysisList d l r n m ∧
      sPossible ∉ analysisList d l r n m) ∧
    (sCaveat ∈ analysisList d l r n m ↔ 0.45 < d) ∧
    (0.45 < d → (analysisList d l r n m).getLast? = some sCaveat) ∧
    (analysisList d l r n m).Sublist
      [sVeryHigh, sGood, sPossible, sStrong, sEyes, sNose, sMouth, sCaveat] := by
  refine ⟨?_, ?_, ?_, ?_, ?_, ?_, analysisList_sublist d l r n m⟩ <;>
  · simp only [analysisList]
    split_ifs <;>
      simp_all [sVeryHigh, sGood, sPossible, sStrong, sEyes, sNose, sMouth, sCaveat] <;>
      first
        | linarith
        | (constructor <;> linarith)
        | (rintro ⟨h1, h2⟩; linarith)
        | (intro h1; linarith)

/-- C4 witness: at distance 0.5 the caveat condition holds and the caveat
sentence closes the list. -/
theorem rationale_structure_witness :
    (analysisList 0.5 0 0 0 0).getLast? = some sCaveat :=
  (rationale_structure 0.5 0 0 0 0).2.2.2.2.2.1 (by norm_num)

end Drishti
